import Mathlib

/-!
Verification of the iscp interactive SCP file-transfer tool
(`src/main.rs`), a shallow embedding of its configuration step
(`get_transfer_config`), its authentication sequence (`authenticate`)
and its transfer loop with shutdown sequence (`transfer_file`).

External collaborators (terminal prompts, the filesystem, the ssh2
transport) are modelled as oracles passed in explicitly; the control
flow of the Rust functions is translated directly.
-/

namespace Iscp

/-! ### Port parsing — `get_transfer_config`, main.rs lines 68–84 -/

/-- Model of Rust `str::parse::<u16>()`: an optional leading `'+'`
followed by at least one ASCII digit, value at most 65535; anything
else (empty string, sign alone, non-digits, overflow) is a parse
error, modelled as `none`. -/
def parseU16 (s : String) : Option Nat :=
  let ds : List Char :=
    match s.data with
    | '+' :: rest => rest
    | cs => cs
  if ds.isEmpty || !(ds.all (fun c => c.isDigit)) then none
  else
    let v := ds.foldl (fun a c => a * 10 + (c.toNat - 48)) 0
    if v ≤ 65535 then some v else none

/-- main.rs lines 74–84: empty port input defaults to 22; a non-empty
input is parsed as `u16`, and on a parse error the tool warns and
falls back to 22 (`unwrap_or_else`). -/
def portFromInput (s : String) : Nat :=
  if s = "" then 22
  else (parseU16 s).getD 22

/-! ### Path basename — `Path::file_name()` as used at main.rs lines 93–97 -/

/-- Splits a list of characters at `'/'` separators. -/
def splitSlash : List Char → List Char → List String
  | [], acc => [String.mk acc.reverse]
  | c :: cs, acc =>
    if c = '/' then String.mk acc.reverse :: splitSlash cs []
    else splitSlash cs (c :: acc)

/-- The normal components of a Unix path: split at `'/'`, dropping
empty components and `"."` components (as Rust `Path::components`
does). -/
def pathComponents (p : String) : List String :=
  (splitSlash p.data []).filter (fun c => c != "" && c != ".")

/-- Model of Rust `Path::file_name()`: the last normal component of
the path, or `none` when the path is empty, is a bare root, or ends
in `".."`. -/
def fileName (p : String) : Option String :=
  match (pathComponents p).getLast? with
  | some c => if c = ".." then none else some c
  | none => none

/-! ### Configuration — `get_transfer_config`, main.rs lines 49–123 -/

/-- The `TransferConfig` struct of main.rs lines 11–18. -/
structure TransferConfig where
  local_file : String
  remote_host : String
  port : Nat
  remote_path : String
  username : String
deriving DecidableEq

/-- The five strings collected interactively by `get_transfer_config`
(the prompt collaborator is modelled as these pre-supplied answers). -/
structure ConfigInputs where
  local_file : String
  remote_host : String
  port_input : String
  username : String
  remote_path_input : String

/-- Outcome of `get_transfer_config`: a built config, the
`process::exit(1)` taken at main.rs line 58 when the local file does
not exist, or the panic of the `.unwrap()` at main.rs line 95 when
`file_name()` returns `None`. -/
inductive ConfigResult where
  | ok (c : TransferConfig)
  | exitLocalFileMissing
  | panicFileNameUnwrap
deriving DecidableEq

/-- main.rs lines 49–123: check the local file exists (else exit),
default the port, compute the default remote path
`/home/{username}/{basename}` via `file_name().unwrap()` (a panic
when `file_name()` is `None`), and default the remote path when the
answer is empty. `pathExists` models `Path::exists`. -/
def get_transfer_config (pathExists : String → Bool) (inp : ConfigInputs) :
    ConfigResult :=
  if pathExists inp.local_file then
    match fileName inp.local_file with
    | some fname =>
      let default_remote_path := "/home/" ++ inp.username ++ "/" ++ fname
      .ok { local_file := inp.local_file
            remote_host := inp.remote_host
            port := portFromInput inp.port_input
            remote_path :=
              if inp.remote_path_input.isEmpty then default_remote_path
              else inp.remote_path_input
            username := inp.username }
    | none => .panicFileNameUnwrap
  else .exitLocalFileMissing

/-! ### Transfer loop — `transfer_file`, main.rs lines 162–174

The loop reads into a fixed `[0; 8192]` buffer, stops on a zero-byte
read, writes each chunk in full (`write_all`) and adds the chunk
length to `transferred`.  For a regular file, each `read` returns
between 1 and `min 8192 remaining` bytes while `remaining > 0`, and 0
exactly at end of file; `sched` is the (adversarial) schedule of read
sizes, clamped into that contract. -/

/-- The successive chunk lengths produced by the read loop of
`transfer_file` on a file with `remaining` bytes left, reads following
the schedule `sched` (clamped to the regular-file read contract:
at least 1 byte, at most `min 8192 remaining`, while bytes remain). -/
def chunkSizes (sched : Nat → Nat) (step remaining : Nat) : List Nat :=
  if h : remaining = 0 then []
  else
    let r := min (max (sched step) 1) (min 8192 remaining)
    r :: chunkSizes sched (step + 1) (remaining - r)
termination_by remaining
decreasing_by
  have h1 : 0 < remaining := Nat.pos_of_ne_zero h
  have h2 : 0 < min (max (sched step) 1) (min 8192 remaining) := by
    refine lt_min ?_ ?_
    · exact lt_of_lt_of_le Nat.one_pos (Nat.le_max_right _ _)
    · exact lt_min (by norm_num) h1
  omega

/-- The successive values taken by the `transferred` counter
(main.rs lines 163, 172–173): starting from `acc`, after each chunk
write the counter is increased by the chunk length and reported to the
progress bar. -/
def progressValues : List Nat → Nat → List Nat
  | [], _ => []
  | c :: cs, acc => (acc + c) :: progressValues cs (acc + c)

/-! ### Channel shutdown — `transfer_file`, main.rs lines 177–180 -/

/-- The four channel shutdown operations invoked after the loop. -/
inductive ShutdownStep where
  | sendEof
  | waitEof
  | close
  | waitClose
deriving DecidableEq

/-- The order the source invokes the shutdown steps in. -/
def shutdownOrder : List ShutdownStep :=
  [.sendEof, .waitEof, .close, .waitClose]

/-- main.rs lines 177–180: `send_eof()?; wait_eof()?; close()?;
wait_close()?`.  `o` is the channel oracle giving each step's outcome
(`none` = `Ok`, `some e` = `Err e`); the result records the steps
actually invoked, in order, and the error returned early by `?`, if
any. -/
def shutdown (o : ShutdownStep → Option String) :
    List ShutdownStep × Option String :=
  match o .sendEof with
  | some e => ([.sendEof], some e)
  | none =>
    match o .waitEof with
    | some e => ([.sendEof, .waitEof], some e)
    | none =>
      match o .close with
      | some e => ([.sendEof, .waitEof, .close], some e)
      | none =>
        match o .waitClose with
        | some e => ([.sendEof, .waitEof, .close, .waitClose], some e)
        | none => ([.sendEof, .waitEof, .close, .waitClose], none)

/-! ### Authentication — `authenticate`, main.rs lines 187–261 -/

/-- Outcome of one ssh2 authentication call.  The Rust API returns
`Result<(), Error>`; `rejected` and `transportError` both map to
`Err` — the source only ever tests `Ok` vs `Err` (`if let Ok(_)`,
`match ... Ok(_) => ... _ =>`), so the two are indistinguishable to
it. -/
inductive AuthResult where
  | ok
  | rejected
  | transportError
deriving DecidableEq

/-- The external collaborators of `authenticate`: the `HOME` lookup
(line 192), `Path::exists` on key files (line 200),
`userauth_pubkey_file` (lines 209, 224), the passphrase prompt
(lines 219–222), the password prompt (lines 246–249) and
`userauth_password` (line 251). -/
structure AuthEnv where
  home : Option String
  keyExists : String → Bool
  pubkeyAuth : String → Option String → AuthResult
  passphraseFor : String → String
  password : String
  passwordAuth : String → AuthResult

/-- Observable events of a run of `authenticate`: authentication
attempts and interactive prompts, in order. -/
inductive AuthEvent where
  | keyAttempt (path : String) (passphrase : Option String)
  | passphrasePrompt (path : String)
  | passwordPrompt
  | passwordAttempt
deriving DecidableEq

/-- The key path an event concerns, if any. -/
def AuthEvent.keyOf : AuthEvent → Option String
  | .keyAttempt k _ => some k
  | .passphrasePrompt k => some k
  | _ => none

/-- Whether an event belongs to the password fallback. -/
def AuthEvent.isPassword : AuthEvent → Bool
  | .passwordPrompt => true
  | .passwordAttempt => true
  | _ => false

/-- The two terminal input primitives of the `dialoguer` crate used by
the source: `Input` echoes what is typed, `Password` masks it. -/
inductive InputPrimitive where
  | plain
  | masked
deriving DecidableEq

/-- Which input primitive the source uses for each interactive prompt
of `authenticate`: the passphrase prompt is `Password::new()`
(main.rs line 219, masked); the password prompt is `Input::new()`
(main.rs line 246, plain echo). -/
def promptPrimitive : AuthEvent → Option InputPrimitive
  | .passphrasePrompt _ => some .masked
  | .passwordPrompt => some .plain
  | _ => none

/-- Whether a prompt collects a secret value (a key passphrase or the
login password). -/
def collectsSecret : AuthEvent → Bool
  | .passphrasePrompt _ => true
  | .passwordPrompt => true
  | _ => false

/-- main.rs lines 193–197: the candidate key paths, in the fixed
order `id_rsa`, `id_ed25519`, `id_ecdsa`. -/
def key_paths (home : String) : List String :=
  [home ++ "/.ssh/id_rsa", home ++ "/.ssh/id_ed25519", home ++ "/.ssh/id_ecdsa"]

/-- One iteration of the key loop (main.rs lines 199–236): skip a
missing key file; otherwise attempt public-key auth without
passphrase, and if that call is not `Ok`, prompt for a passphrase and
retry once with it.  Returns the events of the iteration and whether
it ended in `return Ok(true)`. -/
def tryOneKey (env : AuthEnv) (k : String) : List AuthEvent × Bool :=
  if env.keyExists k then
    match env.pubkeyAuth k none with
    | .ok => ([.keyAttempt k none], true)
    | _ =>
      match env.pubkeyAuth k (some (env.passphraseFor k)) with
      | .ok => ([.keyAttempt k none, .passphrasePrompt k,
                 .keyAttempt k (some (env.passphraseFor k))], true)
      | _ => ([.keyAttempt k none, .passphrasePrompt k,
               .keyAttempt k (some (env.passphraseFor k))], false)
  else ([], false)

/-- The `for key_path in &key_paths` loop (main.rs lines 199–237):
iterations run in list order, and a `return Ok(true)` inside an
iteration stops the loop. -/
def tryKeys (env : AuthEnv) : List String → List AuthEvent × Bool
  | [] => ([], false)
  | k :: rest =>
    let r := tryOneKey env k
    if r.2 then r
    else (r.1 ++ (tryKeys env rest).1, (tryKeys env rest).2)

/-- main.rs lines 192–238: the whole key phase.  When `HOME` is unset
(`std::env::var` fails) the key phase is skipped entirely. -/
def keysOutcome (env : AuthEnv) : List AuthEvent × Bool :=
  match env.home with
  | some home => tryKeys env (key_paths home)
  | none => ([], false)

/-- main.rs lines 187–261: `authenticate`.  If the key phase returned
`Ok(true)` the function is done; otherwise it falls through to the
password fallback (lines 240–260): one password prompt, one
`userauth_password` call, `Ok(true)` on `Ok` and `Ok(false)` on any
`Err`.  Note the function always returns `Ok(_)`: no authentication
call's error is ever propagated as `Err`. -/
def authenticate (env : AuthEnv) : List AuthEvent × Bool :=
  if (keysOutcome env).2 then ((keysOutcome env).1, true)
  else
    ((keysOutcome env).1 ++ [.passwordPrompt, .passwordAttempt],
     match env.passwordAuth env.password with
     | .ok => true
     | _ => false)

/-- Collapses a transport error into a rejection. -/
def collapseResult : AuthResult → AuthResult
  | .ok => .ok
  | _ => .rejected

/-- The same environment with every transport error reported by an
authentication call replaced by a plain rejection. -/
def collapseEnv (env : AuthEnv) : AuthEnv :=
  { env with
    pubkeyAuth := fun k p => collapseResult (env.pubkeyAuth k p)
    passwordAuth := fun pw => collapseResult (env.passwordAuth pw) }

/-! ### Concrete instances used in witnesses and counterexamples -/

/-- Filesystem where exactly the path `".."` exists (the current
directory's parent: a perfectly valid answer to the local-file
prompt, and `Path::exists` is true for directories). -/
def dotdotExists : String → Bool := fun p => p == ".."

/-- Prompt answers naming `".."` as the local file. -/
def dotdotInputs : ConfigInputs :=
  { local_file := ".."
    remote_host := "example.com"
    port_input := ""
    username := "alice"
    remote_path_input := "" }

/-- A channel whose `close` call fails. -/
def oFailClose : ShutdownStep → Option String :=
  fun s => match s with
  | .close => some "failure injected at close"
  | _ => none

/-- Environment where every key file exists and the very first
no-passphrase public-key attempt succeeds. -/
def cEnvFirstKey : AuthEnv :=
  { home := some "/h"
    keyExists := fun _ => true
    pubkeyAuth := fun _ _ => .ok
    passphraseFor := fun _ => "pp"
    password := "pw"
    passwordAuth := fun _ => .rejected }

/-- Environment where key files exist, the no-passphrase attempt is
rejected, and the retry with the prompted passphrase succeeds. -/
def cEnvPassphrase : AuthEnv :=
  { home := some "/h"
    keyExists := fun _ => true
    pubkeyAuth := fun _ p => match p with | some _ => .ok | none => .rejected
    passphraseFor := fun _ => "pp"
    password := "pw"
    passwordAuth := fun _ => .rejected }

/-- Environment with no home directory and a rejected password. -/
def cEnvPassword : AuthEnv :=
  { home := none
    keyExists := fun _ => false
    pubkeyAuth := fun _ _ => .rejected
    passphraseFor := fun _ => ""
    password := "pw"
    passwordAuth := fun _ => .rejected }

/-- Environment with no key files where the password call fails with
a transport-level error (e.g. connection reset). -/
def cEnvPwTransport : AuthEnv :=
  { home := none
    keyExists := fun _ => false
    pubkeyAuth := fun _ _ => .rejected
    passphraseFor := fun _ => ""
    password := "pw"
    passwordAuth := fun _ => .transportError }

/-- Same environment, but the password is merely rejected. -/
def cEnvPwRejected : AuthEnv :=
  { home := none
    keyExists := fun _ => false
    pubkeyAuth := fun _ _ => .rejected
    passphraseFor := fun _ => ""
    password := "pw"
    passwordAuth := fun _ => .rejected }

/-- Environment where the only key file is `id_rsa` and every
public-key call fails with a transport-level error. -/
def cEnvKeyTransport : AuthEnv :=
  { home := some "/h"
    keyExists := fun p => p == "/h/.ssh/id_rsa"
    pubkeyAuth := fun _ _ => .transportError
    passphraseFor := fun _ => "pp"
    password := "pw"
    passwordAuth := fun _ => .rejected }

/-! ## Lemmas about the transfer loop -/

/-- A file with no bytes left produces no chunks. -/
theorem chunkSizes_zero (sched : Nat → Nat) (step : Nat) :
    chunkSizes sched step 0 = [] := by
  rw [chunkSizes]
  simp

/-- Unfolding of one loop iteration while bytes remain. -/
theorem chunkSizes_succ (sched : Nat → Nat) (step remaining : Nat)
    (h : remaining ≠ 0) :
    chunkSizes sched step remaining =
      min (max (sched step) 1) (min 8192 remaining)
        :: chunkSizes sched (step + 1)
             (remaining - min (max (sched step) 1) (min 8192 remaining)) := by
  rw [chunkSizes]
  simp [h]

/-- The chunks of a run always sum to the number of bytes the file
held when the loop started. -/
theorem chunkSizes_sum (sched : Nat → Nat) :
    ∀ S step, (chunkSizes sched step S).sum = S := by
  intro S
  induction S using Nat.strong_induction_on with
  | _ S ih =>
    intro step
    by_cases h : S = 0
    · subst h
      rw [chunkSizes_zero]
      rfl
    · rw [chunkSizes_succ sched step S h]
      have h1 : 0 < S := Nat.pos_of_ne_zero h
      have hrle : min (max (sched step) 1) (min 8192 S) ≤ S :=
        le_trans (min_le_right _ _) (min_le_right _ _)
      have hrpos : 0 < min (max (sched step) 1) (min 8192 S) :=
        lt_min (lt_of_lt_of_le Nat.one_pos (Nat.le_max_right _ _))
          (lt_min (by norm_num) h1)
      have ihs := ih (S - min (max (sched step) 1) (min 8192 S)) (by omega) (step + 1)
      rw [List.sum_cons, ihs]
      omega

/-- Every chunk is non-empty and fits the fixed 8192-byte buffer. -/
theorem chunkSizes_bounds (sched : Nat → Nat) :
    ∀ S step c, c ∈ chunkSizes sched step S → 1 ≤ c ∧ c ≤ 8192 := by
  intro S
  induction S using Nat.strong_induction_on with
  | _ S ih =>
    intro step c hc
    by_cases h : S = 0
    · subst h
      rw [chunkSizes_zero] at hc
      exact absurd hc (List.not_mem_nil c)
    · rw [chunkSizes_succ sched step S h] at hc
      have h1 : 0 < S := Nat.pos_of_ne_zero h
      have hrpos : 0 < min (max (sched step) 1) (min 8192 S) :=
        lt_min (lt_of_lt_of_le Nat.one_pos (Nat.le_max_right _ _))
          (lt_min (by norm_num) h1)
      rcases List.mem_cons.1 hc with hceq | hmem
      · subst hceq
        exact ⟨hrpos, le_trans (min_le_right _ _) (min_le_left _ _)⟩
      · exact ih _ (by omega) (step + 1) c hmem

/-- The counter's last reported value is its start plus the chunk
total. -/
theorem progressValues_getLastD (cs : List Nat) :
    ∀ acc, (progressValues cs acc).getLastD acc = acc + cs.sum := by
  induction cs with
  | nil => intro acc; simp [progressValues]
  | cons c cs ih =>
    intro acc
    show ((acc + c) :: progressValues cs (acc + c)).getLastD acc = _
    rw [List.getLastD_cons, ih (acc + c), List.sum_cons]
    omega

/-- Starting from any value, the counter never decreases. -/
theorem progressValues_chain (cs : List Nat) :
    ∀ acc, List.Chain' (· ≤ ·) (acc :: progressValues cs acc) := by
  induction cs with
  | nil => intro acc; simp [progressValues]
  | cons c cs ih =>
    intro acc
    show List.Chain' (· ≤ ·) (acc :: (acc + c) :: progressValues cs (acc + c))
    exact List.chain'_cons.2 ⟨Nat.le_add_right acc c, ih (acc + c)⟩

/-- Every reported counter value is at most its start plus the chunk
total. -/
theorem progressValues_le (cs : List Nat) :
    ∀ acc v, v ∈ progressValues cs acc → v ≤ acc + cs.sum := by
  induction cs with
  | nil => intro acc v hv; simp [progressValues] at hv
  | cons c cs ih =>
    intro acc v hv
    rw [show progressValues (c :: cs) acc
          = (acc + c) :: progressValues cs (acc + c) from rfl] at hv
    rw [List.sum_cons]
    rcases List.mem_cons.1 hv with h | h
    · omega
    · have := ih (acc + c) v h
      omega

/-- Each reported counter value is the previous one plus exactly the
length of the chunk just written. -/
theorem progressValues_getD (cs : List Nat) :
    ∀ acc i, i < cs.length →
      (acc :: progressValues cs acc).getD (i + 1) 0
        = (acc :: progressValues cs acc).getD i 0 + cs.getD i 0 := by
  induction cs with
  | nil => intro acc i hi; simp at hi
  | cons c cs ih =>
    intro acc i hi
    cases i with
    | zero => simp [progressValues]
    | succ j =>
      have hj : j < cs.length := by simpa using hi
      have h2 := ih (acc + c) j hj
      simpa [progressValues, List.getD_cons_succ] using h2

/-- The concrete chunk sequence for a 20000-byte file with full
8192-byte reads. -/
theorem chunkSizes_20000 :
    chunkSizes (fun _ => 8192) 0 20000 = [8192, 8192, 3616] := by
  rw [chunkSizes_succ _ _ _ (by norm_num)]
  norm_num
  rw [chunkSizes_succ _ _ _ (by norm_num)]
  norm_num
  rw [chunkSizes_succ _ _ _ (by norm_num)]
  norm_num
  exact chunkSizes_zero _ _

/-- The concrete counter sequence for those three chunks. -/
theorem progressValues_20000 :
    progressValues [8192, 8192, 3616] 0 = [8192, 16384, 20000] := by
  norm_num [progressValues]

/-! ## Claim C1 -/

/-- C1: for a local file of `S` bytes, the transfer loop of
`transfer_file` reads with a fixed 8192-byte buffer and writes each
non-empty chunk in full, so the chunk lengths written sum to exactly
`S` and the final `transferred` counter equals `S`; in particular for
`S = 20000` with full reads the writes are 8192, 8192, 3616 in order
and the counter takes the values 8192, 16384, 20000. -/
theorem transfer_loop_totals (sched : Nat → Nat) (S : Nat) :
    (chunkSizes sched 0 S).sum = S
    ∧ (progressValues (chunkSizes sched 0 S) 0).getLastD 0 = S
    ∧ (∀ c ∈ chunkSizes sched 0 S, 1 ≤ c ∧ c ≤ 8192)
    ∧ chunkSizes (fun _ => 8192) 0 20000 = [8192, 8192, 3616]
    ∧ progressValues (chunkSizes (fun _ => 8192) 0 20000) 0
        = [8192, 16384, 20000] := by
  refine ⟨chunkSizes_sum sched S 0, ?_, ?_, chunkSizes_20000, ?_⟩
  · have h := progressValues_getLastD (chunkSizes sched 0 S) 0
    rwa [chunkSizes_sum sched S 0, Nat.zero_add] at h
  · intro c hc
    exact chunkSizes_bounds sched S 0 c hc
  · rw [chunkSizes_20000]
    exact progressValues_20000

/-- Witness for C1 at the 20000-byte file with full reads. -/
theorem transfer_loop_totals_witness :
    (chunkSizes (fun _ => 8192) 0 20000).sum = 20000
    ∧ 1 ≤ 3616 ∧ 3616 ≤ 8192 := by
  have h := transfer_loop_totals (fun _ => 8192) 20000
  refine ⟨h.1, h.2.2.1 3616 ?_⟩
  rw [h.2.2.2.1]
  simp

/-! ## Claim C8 -/

/-- C8: throughout the transfer loop the `transferred` counter is
monotonically non-decreasing, is incremented by exactly each chunk's
length immediately after that chunk is written, and — the file holding
exactly the `S` bytes declared from metadata — never exceeds the
declared file size. -/
theorem transferred_monotone_bounded (sched : Nat → Nat) (S : Nat) :
    List.Chain' (· ≤ ·) (0 :: progressValues (chunkSizes sched 0 S) 0)
    ∧ (∀ v ∈ progressValues (chunkSizes sched 0 S) 0, v ≤ S)
    ∧ (∀ i, i < (chunkSizes sched 0 S).length →
        (0 :: progressValues (chunkSizes sched 0 S) 0).getD (i + 1) 0
          = (0 :: progressValues (chunkSizes sched 0 S) 0).getD i 0
            + (chunkSizes sched 0 S).getD i 0) := by
  refine ⟨progressValues_chain _ 0, ?_, ?_⟩
  · intro v hv
    have h := progressValues_le (chunkSizes sched 0 S) 0 v hv
    rwa [chunkSizes_sum sched S 0, Nat.zero_add] at h
  · intro i hi
    exact progressValues_getD (chunkSizes sched 0 S) 0 i hi

/-- Witness for C8 at the 20000-byte file with full reads. -/
theorem transferred_monotone_bounded_witness :
    (8192 : Nat) ≤ 20000
    ∧ (0 :: progressValues (chunkSizes (fun _ => 8192) 0 20000) 0).getD 1 0
        = (0 :: progressValues (chunkSizes (fun _ => 8192) 0 20000) 0).getD 0 0
          + (chunkSizes (fun _ => 8192) 0 20000).getD 0 0 := by
  have h := transferred_monotone_bounded (fun _ => 8192) 20000
  refine ⟨h.2.1 8192 ?_, h.2.2 0 ?_⟩
  · rw [chunkSizes_20000, progressValues_20000]
    simp
  · rw [chunkSizes_20000]
    simp

/-! ## Claim C2 -/

/-- C2: on a successful transfer, after the write loop `transfer_file`
performs send-eof, wait-eof, close, wait-close in that exact order,
exactly once each; and when any one of the four steps fails, the
subsequent steps are not performed and the operation returns that
error. -/
theorem transfer_shutdown_sequence (o : ShutdownStep → Option String) :
    ((∀ s, o s = none) →
       shutdown o = (shutdownOrder, none)
       ∧ ∀ s, (shutdown o).1.count s = 1)
    ∧ (∀ k e, (∀ j, j < k → o (shutdownOrder.getD j .sendEof) = none) →
        o (shutdownOrder.getD k .sendEof) = some e →
        shutdown o = (shutdownOrder.take (k + 1), some e)) := by
  constructor
  · intro hall
    have h0 := hall .sendEof
    have h1 := hall .waitEof
    have h2 := hall .close
    have h3 := hall .waitClose
    have hs : shutdown o = (shutdownOrder, none) := by
      simp [shutdown, h0, h1, h2, h3, shutdownOrder]
    refine ⟨hs, ?_⟩
    intro s
    rw [hs]
    cases s <;> simp [shutdownOrder]
  · intro k e hbefore hk
    match k with
    | 0 =>
      have hk0 : o .sendEof = some e := hk
      simp [shutdown, hk0, shutdownOrder]
    | 1 =>
      have h0 : o .sendEof = none := hbefore 0 (by omega)
      have hk1 : o .waitEof = some e := hk
      simp [shutdown, h0, hk1, shutdownOrder]
    | 2 =>
      have h0 : o .sendEof = none := hbefore 0 (by omega)
      have h1 : o .waitEof = none := hbefore 1 (by omega)
      have hk2 : o .close = some e := hk
      simp [shutdown, h0, h1, hk2, shutdownOrder]
    | 3 =>
      have h0 : o .sendEof = none := hbefore 0 (by omega)
      have h1 : o .waitEof = none := hbefore 1 (by omega)
      have h2 : o .close = none := hbefore 2 (by omega)
      have hk3 : o .waitClose = some e := hk
      simp [shutdown, h0, h1, h2, hk3, shutdownOrder]
    | (n + 4) =>
      have h0 : o .sendEof = none := hbefore 0 (by omega)
      have hk4 : o .sendEof = some e := hk
      rw [h0] at hk4
      cases hk4

/-- Witness for C2: a channel where all steps succeed, and one where
`close` fails after `send_eof` and `wait_eof` succeeded. -/
theorem transfer_shutdown_sequence_witness :
    shutdown (fun _ => none) = (shutdownOrder, none)
    ∧ shutdown oFailClose
        = (shutdownOrder.take 3, some "failure injected at close") := by
  constructor
  · exact ((transfer_shutdown_sequence (fun _ => none)).1 (fun s => rfl)).1
  · exact (transfer_shutdown_sequence oFailClose).2 2 "failure injected at close"
      (by intro j hj; interval_cases j <;> rfl) rfl

/-! ## Lemmas about authentication -/

/-- One key-loop iteration produces one of exactly three traces:
nothing (missing file), a lone successful no-passphrase attempt, or
attempt–prompt–retry. -/
theorem tryOneKey_trace_cases (env : AuthEnv) (k : String) :
    (tryOneKey env k).1 = []
    ∨ (tryOneKey env k).1 = [.keyAttempt k none]
    ∨ (tryOneKey env k).1
        = [.keyAttempt k none, .passphrasePrompt k,
           .keyAttempt k (some (env.passphraseFor k))] := by
  unfold tryOneKey
  by_cases hex : env.keyExists k
  · simp only [hex, if_true]
    cases h1 : env.pubkeyAuth k none
    · exact Or.inr (Or.inl rfl)
    · cases h2 : env.pubkeyAuth k (some (env.passphraseFor k)) <;>
        exact Or.inr (Or.inr rfl)
    · cases h2 : env.pubkeyAuth k (some (env.passphraseFor k)) <;>
        exact Or.inr (Or.inr rfl)
  · simp [hex]

/-- Every event of one key-loop iteration concerns that key and is
not a password event. -/
theorem tryOneKey_events (env : AuthEnv) (k : String) :
    ∀ ev ∈ (tryOneKey env k).1,
      ev.keyOf = some k ∧ ev.isPassword = false := by
  intro ev hev
  rcases tryOneKey_trace_cases env k with h | h | h <;> rw [h] at hev
  · exact absurd hev (List.not_mem_nil ev)
  · rcases List.mem_singleton.1 hev with rfl
    exact ⟨rfl, rfl⟩
  · simp only [List.mem_cons, List.not_mem_nil, or_false] at hev
    rcases hev with rfl | rfl | rfl
    · exact ⟨rfl, rfl⟩
    · exact ⟨rfl, rfl⟩
    · exact ⟨rfl, rfl⟩

/-- The key loop emits no password events. -/
theorem tryKeys_no_password (env : AuthEnv) :
    ∀ ks, ∀ ev ∈ (tryKeys env ks).1, ev.isPassword = false := by
  intro ks
  induction ks with
  | nil => intro ev hev; simp [tryKeys] at hev
  | cons k rest ih =>
    intro ev hev
    by_cases h : (tryOneKey env k).2
    · simp only [tryKeys, h, if_true] at hev
      exact (tryOneKey_events env k ev hev).2
    · simp only [tryKeys, h, if_false, Bool.false_eq_true] at hev
      rcases List.mem_append.1 hev with h1 | h2
      · exact (tryOneKey_events env k ev h1).2
      · exact ih ev h2

/-- The whole key phase emits no password events. -/
theorem keysOutcome_no_password (env : AuthEnv) :
    ∀ ev ∈ (keysOutcome env).1, ev.isPassword = false := by
  intro ev hev
  unfold keysOutcome at hev
  cases hh : env.home with
  | some h =>
    rw [hh] at hev
    exact tryKeys_no_password env (key_paths h) ev hev
  | none =>
    rw [hh] at hev
    simp at hev

/-- The key phase contains no password prompt and no password
attempt. -/
theorem keysOutcome_count_password (env : AuthEnv) :
    (keysOutcome env).1.count .passwordPrompt = 0
    ∧ (keysOutcome env).1.count .passwordAttempt = 0 := by
  constructor <;> rw [List.count_eq_zero] <;> intro hmem
  · simpa [AuthEvent.isPassword] using keysOutcome_no_password env _ hmem
  · simpa [AuthEvent.isPassword] using keysOutcome_no_password env _ hmem

/-- A failing no-passphrase attempt on an existing key leads to the
attempt–prompt–retry trace, succeeding exactly when the retry does. -/
theorem tryOneKey_fail_first (env : AuthEnv) (k : String)
    (hex : env.keyExists k = true)
    (hfail : env.pubkeyAuth k none ≠ .ok) :
    tryOneKey env k
      = ([.keyAttempt k none, .passphrasePrompt k,
          .keyAttempt k (some (env.passphraseFor k))],
         env.pubkeyAuth k (some (env.passphraseFor k)) == .ok) := by
  unfold tryOneKey
  simp only [hex, if_true]
  cases h1 : env.pubkeyAuth k none
  · exact absurd h1 hfail
  · cases h2 : env.pubkeyAuth k (some (env.passphraseFor k)) <;> simp [h2]
  · cases h2 : env.pubkeyAuth k (some (env.passphraseFor k)) <;> simp [h2]

/-! ## Claim C3 -/

/-- C3: `authenticate` tries the candidate key paths in the fixed
order `id_rsa`, `id_ed25519`, `id_ecdsa`, skipping any path that does
not exist, and the first successful attempt terminates the procedure
with success: when the first candidate authenticates (with or without
passphrase), no further candidate is attempted and no password prompt
occurs. -/
theorem auth_first_key_success (env : AuthEnv) (h : String)
    (hh : env.home = some h)
    (hs : (tryOneKey env (h ++ "/.ssh/id_rsa")).2 = true) :
    key_paths h = [h ++ "/.ssh/id_rsa", h ++ "/.ssh/id_ed25519",
                   h ++ "/.ssh/id_ecdsa"]
    ∧ (∀ k rest, env.keyExists k = false →
        tryKeys env (k :: rest) = tryKeys env rest)
    ∧ authenticate env = ((tryOneKey env (h ++ "/.ssh/id_rsa")).1, true)
    ∧ (∀ ev ∈ (authenticate env).1,
        ev.keyOf = some (h ++ "/.ssh/id_rsa") ∧ ev.isPassword = false) := by
  have hko : keysOutcome env = tryOneKey env (h ++ "/.ssh/id_rsa") := by
    unfold keysOutcome
    rw [hh]
    unfold key_paths
    simp [tryKeys, hs]
  have hmain : authenticate env
      = ((tryOneKey env (h ++ "/.ssh/id_rsa")).1, true) := by
    unfold authenticate
    rw [hko, hs]
    simp
  refine ⟨rfl, ?_, hmain, ?_⟩
  · intro k rest hne
    have hk : tryOneKey env k = ([], false) := by
      unfold tryOneKey
      simp [hne]
    simp [tryKeys, hk]
  · intro ev hev
    rw [hmain] at hev
    exact tryOneKey_events env (h ++ "/.ssh/id_rsa") ev hev

/-- Witness for C3: every key exists and the first no-passphrase
attempt succeeds; the whole run is that single attempt. -/
theorem auth_first_key_success_witness :
    authenticate cEnvFirstKey
      = ([.keyAttempt ("/h" ++ "/.ssh/id_rsa") none], true) := by
  have h := auth_first_key_success cEnvFirstKey "/h" rfl (by decide)
  rw [h.2.2.1]
  decide

/-! ## Claim C5 -/

/-- C5: for an existing candidate key whose no-passphrase attempt
fails, `authenticate` issues exactly one passphrase prompt and exactly
one passphrase retry for that key; on success the key loop terminates
with success, on failure it continues with the next candidates without
surfacing an error. -/
theorem auth_passphrase_retry (env : AuthEnv) (k : String)
    (rest : List String)
    (hex : env.keyExists k = true)
    (hfail : env.pubkeyAuth k none ≠ .ok) :
    (tryOneKey env k).1
      = [.keyAttempt k none, .passphrasePrompt k,
         .keyAttempt k (some (env.passphraseFor k))]
    ∧ ((tryOneKey env k).2 = true
         ↔ env.pubkeyAuth k (some (env.passphraseFor k)) = .ok)
    ∧ (env.pubkeyAuth k (some (env.passphraseFor k)) = .ok →
        tryKeys env (k :: rest) = ((tryOneKey env k).1, true))
    ∧ (env.pubkeyAuth k (some (env.passphraseFor k)) ≠ .ok →
        tryKeys env (k :: rest)
          = ((tryOneKey env k).1 ++ (tryKeys env rest).1,
             (tryKeys env rest).2)) := by
  have hko := tryOneKey_fail_first env k hex hfail
  refine ⟨by rw [hko], ?_, ?_, ?_⟩
  · rw [hko]
    simp
  · intro h2
    rw [tryKeys, hko]
    simp [h2]
  · intro h2
    have hb : (env.pubkeyAuth k (some (env.passphraseFor k)) == .ok) = false := by
      simpa using h2
    rw [tryKeys, hko]
    simp [hb]

/-- Witness for C5: key exists, no-passphrase attempt rejected,
passphrase retry succeeds. -/
theorem auth_passphrase_retry_witness :
    (tryOneKey cEnvPassphrase "/h/.ssh/id_rsa").1
      = [.keyAttempt "/h/.ssh/id_rsa" none,
         .passphrasePrompt "/h/.ssh/id_rsa",
         .keyAttempt "/h/.ssh/id_rsa" (some "pp")] := by
  have h := auth_passphrase_retry cEnvPassphrase "/h/.ssh/id_rsa" [] rfl
    (by decide)
  rw [h.1]
  rfl

/-! ## Claim C6 -/

/-- C6: when the home directory is unavailable or no candidate key
authenticates (including when none exists), `authenticate` falls
through to a single password prompt and exactly one password attempt;
that attempt's failure means the unified failure outcome with no
further retries of any method. -/
theorem auth_password_fallback (env : AuthEnv)
    (h : (keysOutcome env).2 = false) :
    (authenticate env).1
      = (keysOutcome env).1 ++ [.passwordPrompt, .passwordAttempt]
    ∧ (authenticate env).1.count .passwordPrompt = 1
    ∧ (authenticate env).1.count .passwordAttempt = 1
    ∧ ((authenticate env).2 = true ↔ env.passwordAuth env.password = .ok) := by
  have htr : (authenticate env).1
      = (keysOutcome env).1 ++ [.passwordPrompt, .passwordAttempt] := by
    simp [authenticate, h]
  refine ⟨htr, ?_, ?_, ?_⟩
  · rw [htr, List.count_append, (keysOutcome_count_password env).1]
    rfl
  · rw [htr, List.count_append, (keysOutcome_count_password env).2]
    rfl
  · simp only [authenticate, h, Bool.false_eq_true, if_false]
    cases hp : env.passwordAuth env.password <;> simp [hp]

/-- Witness for C6: no home directory, rejected password. -/
theorem auth_password_fallback_witness :
    (authenticate cEnvPassword).1.count .passwordPrompt = 1
    ∧ (authenticate cEnvPassword).1.count .passwordAttempt = 1 := by
  have h := auth_password_fallback cEnvPassword (by decide)
  exact ⟨h.2.1, h.2.2.1⟩

/-! ## Claim C4 -/

/-- C4 counterexample: transport-level errors during authentication
calls are NOT propagated as a distinct fatal error.  With no key
files, a password call failing with a transport error produces the
very same observable run as a plain credential rejection — the
unified failure outcome, not a surfaced transport fault; and when
every public-key call on the only key fails with a transport error,
`authenticate` just falls through to the password prompt instead of
aborting. -/
theorem auth_transport_error_not_fatal_cex :
    authenticate cEnvPwTransport = authenticate cEnvPwRejected
    ∧ (authenticate cEnvPwTransport).2 = false
    ∧ (authenticate cEnvKeyTransport).1.count .passwordPrompt = 1 := by
  refine ⟨?_, ?_, ?_⟩ <;> decide

/-- C4 amended: `authenticate` never distinguishes a transport-level
error from a credential rejection — replacing every transport error
reported by the authentication calls with a rejection leaves its
entire behaviour (trace and outcome) unchanged; key-attempt failures
of either kind fall through to the next candidate, and a password
failure of either kind yields the unified failure outcome. -/
theorem auth_transport_collapse (env : AuthEnv) :
    authenticate (collapseEnv env) = authenticate env := by
  have hone : ∀ k, tryOneKey (collapseEnv env) k = tryOneKey env k := by
    intro k
    show tryOneKey
        { env with
          pubkeyAuth := fun k p => collapseResult (env.pubkeyAuth k p)
          passwordAuth := fun pw => collapseResult (env.passwordAuth pw) } k
      = tryOneKey env k
    unfold tryOneKey
    cases h1 : env.pubkeyAuth k none <;>
      cases h2 : env.pubkeyAuth k (some (env.passphraseFor k)) <;>
        simp [collapseResult, h1, h2]
  have hkeys : ∀ ks, tryKeys (collapseEnv env) ks = tryKeys env ks := by
    intro ks
    induction ks with
    | nil => rfl
    | cons k rest ih => simp [tryKeys, hone, ih]
  have hko : keysOutcome (collapseEnv env) = keysOutcome env := by
    unfold keysOutcome
    show (match env.home with
          | some home => tryKeys (collapseEnv env) (key_paths home)
          | none => ([], false)) = _
    cases hh : env.home <;> simp [hkeys]
  unfold authenticate
  rw [hko]
  cases hp : env.passwordAuth env.password <;>
    simp [collapseEnv, collapseResult, hp]

/-! ## Claim C7 -/

/-- C7: in `get_transfer_config`, an empty port input yields port 22,
any input that does not parse as a `u16` yields port 22 (after a
warning), and any input that does parse as a `u16` — such as
`"2222"` — yields exactly that port. -/
theorem port_defaulting (s : String) (v : Nat) :
    portFromInput "" = 22
    ∧ (parseU16 s = none → portFromInput s = 22)
    ∧ (parseU16 s = some v → portFromInput s = v)
    ∧ portFromInput "2222" = 2222 := by
  refine ⟨rfl, ?_, ?_, by decide⟩
  · intro hp
    unfold portFromInput
    by_cases he : s = ""
    · simp [he]
    · simp [he, hp]
  · intro hp
    unfold portFromInput
    by_cases he : s = ""
    · subst he
      rw [show parseU16 "" = none from rfl] at hp
      cases hp
    · simp [he, hp]

/-- Witness for C7 at the unparsable input `"abc"` and the valid
input `"2222"`. -/
theorem port_defaulting_witness :
    portFromInput "abc" = 22 ∧ portFromInput "2222" = 2222 := by
  exact ⟨(port_defaulting "abc" 0).2.1 (by decide),
         (port_defaulting "2222" 2222).2.2.1 (by decide)⟩

/-! ## Claim C9 -/

/-- C9 is wrong about the code: the spec says every secret prompt
uses the masked-input primitive, and the key-passphrase prompt indeed
does (`Password::new()`, main.rs line 219), but the login-password
prompt uses the plain echoing `Input::new()` (main.rs line 246) — the
password is echoed to the terminal. -/
theorem password_prompt_uses_plain_input :
    collectsSecret .passwordPrompt = true
    ∧ promptPrimitive .passwordPrompt = some .plain
    ∧ (promptPrimitive .passwordPrompt == some InputPrimitive.masked) = false
    ∧ (∀ k, collectsSecret (.passphrasePrompt k) = true
         ∧ promptPrimitive (.passphrasePrompt k) = some .masked) :=
  ⟨rfl, rfl, rfl, fun _ => ⟨rfl, rfl⟩⟩

/-! ## Claim C10 -/

/-- C10: the path `".."` passes the existence check of
`get_transfer_config` (it is an existing directory), yet
`Path::file_name()` on it is `None`, so the `.unwrap()` at main.rs
line 95 panics while computing the default remote path instead of
reporting a configuration error and exiting non-zero. -/
theorem config_panics_on_parentdir_path :
    dotdotExists dotdotInputs.local_file = true
    ∧ get_transfer_config dotdotExists dotdotInputs = .panicFileNameUnwrap
    ∧ (get_transfer_config dotdotExists dotdotInputs
        == ConfigResult.exitLocalFileMissing) = false := by
  refine ⟨?_, ?_, ?_⟩ <;> decide

end Iscp
